import Mathlib

/-!
Verification of the graceful shutdown coordinator (`ShutdownCoordinator` class).

The source is a single-threaded JavaScript module driven by the host event
loop.  We embed it as a small-step machine: synchronous code runs to
completion inside one step; every `await` / promise-`then` boundary defers
the continuation as a microtask (FIFO `jobs` queue); `setTimeout` timers and
external I/O events (signals, socket close events, the listener's
`close` callback) are timed macrotasks (`timerQ`), processed in time order
once the microtask queue is empty.  `process.exit` halts the machine.

Observable behaviour (log lines, emitted events, the final exit) is recorded
in an event trace so that the temporal properties can be stated on it.
-/

set_option autoImplicit false
set_option maxRecDepth 10000

namespace ShutdownCoordinator

/-- `EXIT_CODES.GRACEFUL` -/
def EXIT_GRACEFUL : Nat := 0
/-- `EXIT_CODES.TIMEOUT` (forced shutdown due to timeout) -/
def EXIT_TIMEOUT : Nat := 1
/-- `EXIT_CODES.RESOURCE_CLEANUP_FAILED` -/
def EXIT_RESOURCE_CLEANUP_FAILED : Nat := 2
/-- `EXIT_CODES.SIGNAL_ERROR` -/
def EXIT_SIGNAL_ERROR : Nat := 3

/-- `SHUTDOWN_STATES`: the coordinator's state machine. -/
inductive SState
| active
| shutdownPending
| draining
| cleanup
| termination
deriving DecidableEq, Repr

/-- Configuration (the fields of `DEFAULT_CONFIG` the core logic reads). -/
structure Config where
  gracePeriodMs : Nat
  connectionTimeoutMs : Nat
  maxConnections : Nat
deriving DecidableEq, Repr

/-- Which promise chain a deferred continuation belongs to.  `seq` is the
chain awaited inside `handleSignal` (`executeShutdownSequence`);
`cleanupChain` is the detached `.then` chain started by
`transitionToCleanup`. -/
inductive Chain
| seq
| cleanupChain
deriving DecidableEq, Repr

/-- Trace events: the observable log lines / emitted events of the source. -/
inductive Ev
| initiated                         -- "Received <sig>, initiating graceful shutdown"
| ignoredTrigger                    -- "Received <sig> during shutdown, ignoring"
| connRegistered (id : Nat)         -- emit connection-registered
| connRejected                      -- admission control: socket.destroy() on excess connection
| connRemoved (id : Nat)            -- emit connection-removed
| drainImmediate                    -- "No active connections to drain"
| drainStarted (n : Nat)            -- emit draining-started
| drainedNaturally                  -- "All connections drained naturally"
| graceExpired (remaining : Nat)    -- "Grace period expired, forcing connection termination"
| forceClosed (n : Nat)             -- emit connections-force-closed {count}
| cleanupStarted (st : SState)      -- "Starting resource cleanup" (records current state)
| cleanupCompleted                  -- emit cleanup-completed
| callbacksDone                     -- emit shutdown-callbacks-completed
| completed (exitCode : Nat) (finalConns : Nat)  -- emit shutdown-completed + process.exit
deriving DecidableEq, Repr

/-- The registered listener object; only the shape check
`typeof server.close === 'function'` is observable to `registerServer`. -/
structure ServerObj where
  hasClose : Bool
deriving DecidableEq, Repr

/-- Pending continuations and timed events of the embedded event loop. -/
inductive Job
| trigger (err : Bool)        -- a signal / fault / programmatic call reaching handleSignal
| serverCloseCb               -- the listener's close(callback) completing (cleanly)
| connOffer                   -- a new inbound connection ('connection' event)
| socketClose (id : Nat)      -- transport 'close' event for connection id
| idleFire (id : Nat)         -- per-connection timeout (handleConnectionTimeout)
| graceFire                   -- the grace-period timer inside drainConnections
| seqAfterStopAccept          -- resume executeShutdownSequence after stop-accept
| seqAfterDrain               -- resume executeShutdownSequence after drainConnections resolves
| cleanupRest (k : Chain)     -- rest of performResourceCleanup after its await
| callbacksEntry (k : Chain)  -- executeShutdownCallbacks (entered after cleanup resolves)
| completeJob (k : Chain)     -- completeShutdown (entered after callbacks resolve)
| exitNow (code : Nat)        -- the delayed process.exit inside forceShutdown
deriving DecidableEq, Repr

/-- The coordinator's instance fields (the parts the claims observe).
`timers` holds the handles in `this.timers`; the grace-period timer is the
only handle the shutdown flow itself tracks there, with handle id 0. -/
structure Coord where
  state : SState
  shutdownInitiated : Bool
  seqErr : Bool                 -- the `error` argument carried by the running sequence
  conns : List Nat              -- keys of activeConnections, in insertion order
  connectionCounter : Nat
  maxConnectionsReached : Bool
  timers : List Nat             -- this.timers (tracked setTimeout handles)
  intervals : List Nat          -- this.intervals
  signalHandlersInstalled : Bool
  trackingInstalled : Bool
  drainResolved : Bool          -- the drain promise's resolve already ran
  drainListener : Bool          -- checkConnections subscribed to connection-removed
  errCount : Nat                -- this.shutdownErrors.length
  errTimeout : Bool             -- shutdownErrors.some(err.name === 'TimeoutError')
  server : Option ServerObj
  rcCallbackFails : List Bool   -- resourceCleanupCallbacks (true = the callback throws)
  sdCallbackFails : List Bool   -- shutdownCallbacks (true = the callback throws)
deriving DecidableEq, Repr

/-- The whole event-loop machine. -/
structure Machine where
  cfg : Config
  c : Coord
  now : Nat
  jobs : List Job               -- microtask FIFO
  timerQ : List (Nat × Job)     -- pending timers / external timed events
  trace : List Ev
  exited : Option Nat
deriving DecidableEq, Repr

/-- `clearTimeout(graceTimeout)`: the pending grace-period firing is removed
from the host timer queue. -/
def clearGrace (q : List (Nat × Job)) : List (Nat × Job) :=
  q.filter (fun e => decide (e.2 ≠ Job.graceFire))

/-- `clearTimeout(connectionInfo.timeout)` for connection `id`. -/
def clearIdle (q : List (Nat × Job)) (id : Nat) : List (Nat × Job) :=
  q.filter (fun e => decide (e.2 ≠ Job.idleFire id))

/-- `performResourceCleanup` (source lines 542-614), up to its `await`:
the synchronous sweep clears the timer/interval handle sets (no handle
fault occurs on the machine runs; the fault behaviour of the sweep is
modelled by `ResourceTracker.performResourceCleanup` below), removes the
signal handlers, and starts the resource-cleanup callbacks, whose
individual failures are caught and appended to `shutdownErrors`.  The
continuation after `await Promise.all` is deferred as `cleanupRest k`. -/
def performResourceCleanupStart (k : Chain) (m : Machine) : Machine :=
  let fails := (m.c.rcCallbackFails.filter (fun b => b)).length
  { m with
    trace := m.trace ++ [Ev.cleanupStarted m.c.state],
    timerQ := clearGrace m.timerQ,
    c := { m.c with
      timers := [], intervals := [],
      signalHandlersInstalled := false,
      errCount := m.c.errCount + fails },
    jobs := m.jobs ++ [Job.cleanupRest k] }

/-- `transitionToCleanup` (source lines 519-535): sets the state to
`CLEANUP` and starts the detached cleanup → callbacks → complete chain. -/
def transitionToCleanup (m : Machine) : Machine :=
  performResourceCleanupStart Chain.cleanupChain
    { m with c := { m.c with state := SState.cleanup } }

/-- `removeConnection` (source lines 239-270): if the id is tracked, cancel
its idle timeout, delete the record, emit `connection-removed` (which runs
the drain promise's `checkConnections` listener synchronously), and, if the
state is `DRAINING` and the registry is now empty, call
`transitionToCleanup`.  Unknown ids are a no-op. -/
def removeConnection (m : Machine) (id : Nat) : Machine :=
  if id ∈ m.c.conns then
    let conns := m.c.conns.erase id
    let mcr := if conns.length * 5 < m.cfg.maxConnections * 4 then false
               else m.c.maxConnectionsReached
    let m1 : Machine :=
      { m with
        timerQ := clearIdle m.timerQ id,
        c := { m.c with conns := conns, maxConnectionsReached := mcr },
        trace := m.trace ++ [Ev.connRemoved id] }
    -- emit('connection-removed'): the drainConnections listener checkConnections
    let m2 : Machine :=
      if m1.c.drainListener = true ∧ conns = [] then
        { m1 with
          timerQ := clearGrace m1.timerQ,
          c := { m1.c with
                 timers := m1.c.timers.erase 0,
                 drainResolved := true },
          trace := m1.trace ++ [Ev.drainedNaturally],
          jobs := if m1.c.drainResolved then m1.jobs
                  else m1.jobs ++ [Job.seqAfterDrain] }
      else m1
    -- "Check if draining is complete"
    if m2.c.state = SState.draining ∧ conns = [] then transitionToCleanup m2
    else m2
  else m

/-- The `'connection'` handler installed by `setupConnectionTracking`
(source lines 148-221): allocate an id (`generateConnectionId` increments
the counter first), reject when at capacity during `ACTIVE` operation
(`socket.destroy()`), otherwise store the record and arm its idle
timeout. -/
def connOffer (m : Machine) : Machine :=
  let id := m.c.connectionCounter + 1
  let m := { m with c := { m.c with connectionCounter := id } }
  if m.c.conns.length ≥ m.cfg.maxConnections then
    let m := { m with c := { m.c with maxConnectionsReached := true } }
    if m.c.state = SState.active then
      { m with trace := m.trace ++ [Ev.connRejected] }
    else
      { m with
        c := { m.c with conns := m.c.conns ++ [id] },
        timerQ := m.timerQ ++ [(m.now + m.cfg.connectionTimeoutMs, Job.idleFire id)],
        trace := m.trace ++ [Ev.connRegistered id] }
  else
    { m with
      c := { m.c with conns := m.c.conns ++ [id] },
      timerQ := m.timerQ ++ [(m.now + m.cfg.connectionTimeoutMs, Job.idleFire id)],
      trace := m.trace ++ [Ev.connRegistered id] }

/-- `handleSignal` (source lines 340-374) up to its first suspension:
the idempotence guard, then `stopAcceptingConnections`.  With a registered
server the sequence suspends until the listener's close callback
(`Job.serverCloseCb`); without one the stop-accept promise resolves at
once and the continuation is deferred. -/
def handleTrigger (m : Machine) (err : Bool) : Machine :=
  if m.c.shutdownInitiated then
    { m with trace := m.trace ++ [Ev.ignoredTrigger] }
  else
    let m := { m with
      c := { m.c with
             shutdownInitiated := true,
             state := SState.shutdownPending,
             seqErr := err },
      trace := m.trace ++ [Ev.initiated] }
    if m.c.server.isSome then m
    else { m with jobs := m.jobs ++ [Job.seqAfterStopAccept] }

/-- `drainConnections` (source lines 434-478) up to its suspension: empty
registry returns immediately; otherwise enter `DRAINING`, arm the
grace-period timer (tracked in `this.timers` as handle 0), run
`checkConnections` once, and subscribe it to `connection-removed`. -/
def drainEntry (m : Machine) : Machine :=
  if m.c.conns = [] then
    { m with trace := m.trace ++ [Ev.drainImmediate],
             jobs := m.jobs ++ [Job.seqAfterDrain] }
  else
    let m := { m with
      c := { m.c with state := SState.draining, timers := m.c.timers ++ [0] },
      trace := m.trace ++ [Ev.drainStarted m.c.conns.length],
      timerQ := m.timerQ ++ [(m.now + m.cfg.gracePeriodMs, Job.graceFire)] }
    -- immediate checkConnections() (registry is nonempty on this branch)
    let m := if m.c.conns = [] then
        { m with timerQ := clearGrace m.timerQ,
                 c := { m.c with timers := m.c.timers.erase 0, drainResolved := true },
                 trace := m.trace ++ [Ev.drainedNaturally],
                 jobs := m.jobs ++ [Job.seqAfterDrain] }
      else m
    { m with c := { m.c with drainListener := true } }

/-- The grace-period timer firing (source lines 450-457):
`forceCloseConnections` clears the whole registry (emitting
`connections-force-closed`, not per-connection removals) and the drain
promise resolves. -/
def graceFireRun (m : Machine) : Machine :=
  let n := m.c.conns.length
  let m := { m with trace := m.trace ++ [Ev.graceExpired n, Ev.forceClosed n],
                    c := { m.c with conns := [] } }
  if m.c.drainResolved then m
  else { m with c := { m.c with drainResolved := true },
                jobs := m.jobs ++ [Job.seqAfterDrain] }

/-- `executeShutdownCallbacks` (source lines 621-651): an empty callback
list returns at once; otherwise every callback runs, individual failures
are caught and recorded, and `Promise.allSettled` is awaited.  Either way
the caller resumes one microtask later with `completeJob k`. -/
def callbacksRun (k : Chain) (m : Machine) : Machine :=
  if m.c.sdCallbackFails = [] then
    { m with jobs := m.jobs ++ [Job.completeJob k] }
  else
    let fails := (m.c.sdCallbackFails.filter (fun b => b)).length
    { m with c := { m.c with errCount := m.c.errCount + fails },
             trace := m.trace ++ [Ev.callbacksDone],
             jobs := m.jobs ++ [Job.completeJob k] }

/-- `completeShutdown` (source lines 660-689): enter `TERMINATION`, select
the exit code (0 when no error was recorded; otherwise 1 only when some
recorded error is named `TimeoutError`, else 2), emit the outcome and call
`process.exit`.  The `cleanupChain` invocation passes no arguments, so its
`error` parameter is `null`. -/
def completeRun (k : Chain) (m : Machine) : Machine :=
  let errParam := match k with
    | Chain.seq => m.c.seqErr
    | Chain.cleanupChain => false
  let exitCode :=
    if errParam = true ∨ m.c.errCount > 0 then
      if m.c.errTimeout then EXIT_TIMEOUT else EXIT_RESOURCE_CLEANUP_FAILED
    else EXIT_GRACEFUL
  { m with c := { m.c with state := SState.termination },
           trace := m.trace ++ [Ev.completed exitCode m.c.conns.length],
           exited := some exitCode }

/-- `handleConnectionTimeout` (source lines 278-293): a tracked id has its
socket destroyed and is removed; an unknown id is a no-op. -/
def idleFireRun (m : Machine) (id : Nat) : Machine :=
  if id ∈ m.c.conns then removeConnection m id else m

/-- Dispatch one event-loop task. -/
def runTask (m : Machine) : Job → Machine
| Job.trigger err => handleTrigger m err
| Job.serverCloseCb => { m with jobs := m.jobs ++ [Job.seqAfterStopAccept] }
| Job.connOffer => connOffer m
| Job.socketClose id => removeConnection m id
| Job.idleFire id => idleFireRun m id
| Job.graceFire => graceFireRun m
| Job.seqAfterStopAccept => drainEntry m
| Job.seqAfterDrain => performResourceCleanupStart Chain.seq m
| Job.cleanupRest k =>
    { m with trace := m.trace ++ [Ev.cleanupCompleted],
             jobs := m.jobs ++ [Job.callbacksEntry k] }
| Job.callbacksEntry k => callbacksRun k m
| Job.completeJob k => completeRun k m
| Job.exitNow code => { m with exited := some code }

/-- Pop the earliest-scheduled macrotask (stable for equal times). -/
def popEarliest : List (Nat × Job) → Option ((Nat × Job) × List (Nat × Job))
| [] => none
| e :: rest =>
  match popEarliest rest with
  | none => some (e, [])
  | some (e2, rest2) =>
    if e.1 ≤ e2.1 then some (e, rest) else some (e2, e :: rest2)

/-- One scheduler step: after `process.exit` nothing runs; microtasks
drain before the clock advances to the next timer. -/
def step (m : Machine) : Machine :=
  if m.exited.isSome then m
  else
    match m.jobs with
    | j :: rest => runTask { m with jobs := rest } j
    | [] =>
      match popEarliest m.timerQ with
      | none => m
      | some (e, rest) => runTask { m with now := e.1, timerQ := rest } e.2

/-- Run the event loop for a bounded number of steps. -/
def run : Nat → Machine → Machine
| 0, m => m
| Nat.succ n, m => run n (step m)

/-- `registerServer` (source lines 118-140): validates the server object
(`typeof server.close === 'function'`), rejects a second registration,
then stores the server and installs connection tracking and the signal
handlers.  A thrown error is returned as its message, with the
coordinator unchanged. -/
def registerServer (m : Machine) (server : Option ServerObj) : Machine × Option String :=
  match server with
  | none => (m, some "Invalid server instance provided")
  | some s =>
    if s.hasClose = false then (m, some "Invalid server instance provided")
    else if m.c.server.isSome then
      (m, some "Server already registered with shutdown coordinator")
    else
      ({ m with c := { m.c with
           server := some s,
           trackingInstalled := true,
           signalHandlersInstalled := true } }, none)

/-- `forceShutdown` (source lines 697-717): force-close every tracked
connection, clear the tracked timers and intervals (cancelling any pending
grace-period firing), and schedule `process.exit(exitCode)` after the
fixed 100ms logging delay. -/
def forceShutdownRun (m : Machine) (exitCode : Nat) : Machine :=
  let n := m.c.conns.length
  { m with
    c := { m.c with conns := [] },
    timerQ := clearGrace m.timerQ ++ [(m.now + 100, Job.exitNow exitCode)],
    trace := m.trace ++ [Ev.forceClosed n] }

/-- The catch block of `handleSignal` (source lines 362-373), reached when
an exception escapes the awaited `executeShutdownSequence`: the error is
appended to `shutdownErrors` and the coordinator falls back to
`forceShutdown(EXIT_CODES.SIGNAL_ERROR)`. -/
def handleSignalCatch (m : Machine) : Machine :=
  forceShutdownRun
    { m with c := { m.c with errCount := m.c.errCount + 1 } }
    EXIT_SIGNAL_ERROR

/-- Number of resource-cleanup phase executions recorded in a trace. -/
def countCleanupStarts (tr : List Ev) : Nat :=
  (tr.filter (fun e => match e with | Ev.cleanupStarted _ => true | _ => false)).length

/-- Number of accepted shutdown initiations recorded in a trace. -/
def countInitiated (tr : List Ev) : Nat :=
  (tr.filter (fun e => match e with | Ev.initiated => true | _ => false)).length

/-- The coordinator's constructor state (source lines 68-110). -/
def initCoord : Coord :=
  { state := SState.active, shutdownInitiated := false, seqErr := false,
    conns := [], connectionCounter := 0, maxConnectionsReached := false,
    timers := [], intervals := [], signalHandlersInstalled := false,
    trackingInstalled := false, drainResolved := false, drainListener := false,
    errCount := 0, errTimeout := false, server := none,
    rcCallbackFails := [], sdCallbackFails := [] }

/-- Test configuration: the spec's concrete 100ms grace period with the
default idle timeout and connection cap. -/
def cfgTest : Config :=
  { gracePeriodMs := 100, connectionTimeoutMs := 30000, maxConnections := 1000 }

/-- A freshly constructed coordinator with a valid server registered,
about to process the given timed external events. -/
def mkScenario (q : List (Nat × Job)) : Machine :=
  { (registerServer
      { cfg := cfgTest, c := initCoord, now := 0, jobs := [], timerQ := [],
        trace := [], exited := none }
      (some { hasClose := true })).1 with timerQ := q }

/-- One connection is accepted, a trigger arrives (a later second trigger
is ignored by the guard), the listener finishes closing, and the
connection then closes naturally while the coordinator is draining. -/
def scenarioDoubleCleanup : Machine :=
  mkScenario [(0, Job.connOffer), (1, Job.trigger false), (2, Job.serverCloseCb),
              (3, Job.trigger false), (5, Job.socketClose 1)]

/-- The spec's concrete drain scenario: three connections, 100ms grace
period, transports closing about 10ms, 20ms and 150ms after the trigger. -/
def scenarioGraceExpiry : Machine :=
  mkScenario [(0, Job.connOffer), (1, Job.connOffer), (2, Job.connOffer),
              (3, Job.trigger false), (4, Job.serverCloseCb),
              (13, Job.socketClose 1), (23, Job.socketClose 2),
              (153, Job.socketClose 3)]

/-- A trigger with no tracked connections: the drain phase is entered with
an empty registry. -/
def scenarioNoConns : Machine :=
  mkScenario [(0, Job.trigger false), (1, Job.serverCloseCb)]

end ShutdownCoordinator

namespace ResourceTracker

/-- A tracked host handle; `fails` marks a handle whose release throws. -/
structure RHandle where
  hid : Nat
  fails : Bool
deriving DecidableEq, Repr

/-- The Resource Tracker: the coordinator's handle sets
(`this.timers`, `this.intervals`, `this.eventListeners`,
`this.signalHandlers`) and the registered resource-cleanup callbacks
(`true` marks a callback that throws), plus the shared error list's
length. -/
structure Tracker where
  timers : List RHandle
  intervals : List RHandle
  eventListeners : List RHandle
  signalHandlers : List RHandle
  rcCallbacks : List Bool
  shutdownErrors : Nat
deriving DecidableEq, Repr

/-- `performResourceCleanup` (source lines 542-614) over failable handles.
The timer and interval sweeps (`forEach` with `clearTimeout` /
`clearInterval`) have no per-handle catch, so the first faulting handle
raises out of the sweep before the set's `clear()` runs; the outer catch
records the error and re-throws (`throw error`, line 612).  The listener
and signal-handler sweeps catch per handle and always complete; each
failing resource-cleanup callback is caught and recorded individually and
`Promise.all` resolves.  Returns the tracker as the call leaves it and
whether the call raised. -/
def performResourceCleanup (t : Tracker) : Tracker × Bool :=
  if t.timers.any (fun h => h.fails) then
    ({ t with shutdownErrors := t.shutdownErrors + 1 }, true)
  else
    let t := { t with timers := [] }
    if t.intervals.any (fun h => h.fails) then
      ({ t with shutdownErrors := t.shutdownErrors + 1 }, true)
    else
      let t := { t with intervals := [], eventListeners := [], signalHandlers := [] }
      let fails := (t.rcCallbacks.filter (fun b => b)).length
      ({ t with shutdownErrors := t.shutdownErrors + fails }, false)

/-- A tracker seeded with one failing and one succeeding timer handle. -/
def seededTracker : Tracker :=
  { timers := [{ hid := 1, fails := true }, { hid := 2, fails := false }],
    intervals := [], eventListeners := [], signalHandlers := [],
    rcCallbacks := [], shutdownErrors := 0 }

end ResourceTracker

namespace ShutdownCoordinator

/-! ## Supporting lemmas -/

lemma mem_clearGrace {q : List (Nat × Job)} {e : Nat × Job} (h : e ∈ clearGrace q) : e ∈ q :=
  (List.mem_filter.1 h).1

lemma mem_clearIdle {q : List (Nat × Job)} {id : Nat} {e : Nat × Job}
    (h : e ∈ clearIdle q id) : e.2 ≠ Job.idleFire id := by
  have h2 := (List.mem_filter.1 h).2
  simpa using h2

lemma removeConnection_noop (m : Machine) (id : Nat) (h : id ∉ m.c.conns) :
    removeConnection m id = m := by
  simp only [removeConnection, if_neg h]

lemma removeConnection_conns (m : Machine) (id : Nat) :
    (removeConnection m id).c.conns =
      if id ∈ m.c.conns then m.c.conns.erase id else m.c.conns := by
  by_cases h : id ∈ m.c.conns
  · simp only [removeConnection, transitionToCleanup, performResourceCleanupStart, if_pos h]
    repeat' split
    all_goals rfl
  · simp only [removeConnection, if_neg h]

lemma removeConnection_state_or (m : Machine) (id : Nat) :
    (removeConnection m id).c.state = m.c.state ∨
    (m.c.state = SState.draining ∧ (removeConnection m id).c.state = SState.cleanup) := by
  by_cases hm : id ∈ m.c.conns
  · simp only [removeConnection, transitionToCleanup, performResourceCleanupStart, if_pos hm]
    repeat' split
    all_goals simp_all
  · simp [removeConnection_noop m id hm]

lemma removeConnection_timerQ_mem (m : Machine) (id : Nat) (hm : id ∈ m.c.conns) :
    ∀ e ∈ (removeConnection m id).timerQ, e ∈ clearIdle m.timerQ id := by
  simp only [removeConnection, transitionToCleanup, performResourceCleanupStart, if_pos hm]
  repeat' split
  all_goals intro e he
  all_goals first
    | exact he
    | exact mem_clearGrace he
    | exact mem_clearGrace (mem_clearGrace he)

lemma removeConnection_trace_mem (m : Machine) (id : Nat) (hm : id ∈ m.c.conns) :
    Ev.connRemoved id ∈ (removeConnection m id).trace := by
  simp only [removeConnection, transitionToCleanup, performResourceCleanupStart, if_pos hm]
  repeat' split
  all_goals simp

lemma connOffer_state (m : Machine) : (connOffer m).c.state = m.c.state := by
  simp only [connOffer]
  repeat' split
  all_goals rfl

lemma connOffer_cfg (m : Machine) : (connOffer m).cfg = m.cfg := by
  simp only [connOffer]
  repeat' split
  all_goals rfl

lemma removeConnection_cfg (m : Machine) (id : Nat) : (removeConnection m id).cfg = m.cfg := by
  by_cases hm : id ∈ m.c.conns
  · simp only [removeConnection, transitionToCleanup, performResourceCleanupStart, if_pos hm]
    repeat' split
    all_goals rfl
  · rw [removeConnection_noop m id hm]

lemma connOffer_reject (m : Machine) (h1 : m.c.state = SState.active)
    (h2 : m.c.conns.length ≥ m.cfg.maxConnections) :
    (connOffer m).c.conns = m.c.conns ∧
    (connOffer m).trace = m.trace ++ [Ev.connRejected] := by
  simp only [connOffer]
  repeat' split
  all_goals first
    | exact ⟨rfl, rfl⟩
    | (rename_i hst; exact absurd h1 hst)
    | (rename_i hge; exact absurd h2 hge)

lemma connOffer_conns_admitted (m : Machine)
    (hadm : m.c.conns.length < m.cfg.maxConnections ∨ m.c.state ≠ SState.active) :
    (connOffer m).c.conns = m.c.conns ++ [m.c.connectionCounter + 1] := by
  simp only [connOffer]
  repeat' split
  all_goals first
    | rfl
    | (rename_i hge hst
       rcases hadm with hlt | hne
       · exact absurd hge (by omega)
       · exact absurd hst hne)

lemma connOffer_length_bound (m : Machine) (h1 : m.c.state = SState.active)
    (h2 : m.c.conns.length ≤ m.cfg.maxConnections) :
    (connOffer m).c.conns.length ≤ m.cfg.maxConnections := by
  rcases Nat.lt_or_ge m.c.conns.length m.cfg.maxConnections with hlt | hge
  · rw [connOffer_conns_admitted m (Or.inl hlt)]
    simp only [List.length_append, List.length_singleton]
    omega
  · rw [(connOffer_reject m h1 hge).1]
    exact h2

lemma removeConnection_length_le (m : Machine) (id : Nat) :
    (removeConnection m id).c.conns.length ≤ m.c.conns.length := by
  rw [removeConnection_conns]
  split
  · exact List.length_erase_le id m.c.conns
  · exact Nat.le_refl _

/-- A registry-affecting external event: a new-connection offer or a
transport close notification. -/
def ConnEvent (j : Job) : Prop := j = Job.connOffer ∨ ∃ id, j = Job.socketClose id

/-- Processing a list of event-loop tasks in order. -/
def runEvents (m : Machine) (js : List Job) : Machine := js.foldl runTask m

lemma connEvent_preserves (m : Machine) (j : Job) (hj : ConnEvent j)
    (h1 : m.c.state = SState.active) (h2 : m.c.conns.length ≤ m.cfg.maxConnections) :
    (runTask m j).cfg = m.cfg ∧
    (runTask m j).c.state = SState.active ∧
    (runTask m j).c.conns.length ≤ m.cfg.maxConnections := by
  rcases hj with rfl | ⟨id, rfl⟩
  · exact ⟨connOffer_cfg m, (connOffer_state m).trans h1, connOffer_length_bound m h1 h2⟩
  · refine ⟨removeConnection_cfg m id, ?_, Nat.le_trans (removeConnection_length_le m id) h2⟩
    rcases removeConnection_state_or m id with he | ⟨hd, _⟩
    · exact he.trans h1
    · rw [h1] at hd
      cases hd

lemma runEvents_invariant (js : List Job) :
    ∀ m : Machine, (∀ j ∈ js, ConnEvent j) → m.c.state = SState.active →
      m.c.conns.length ≤ m.cfg.maxConnections →
      (runEvents m js).c.conns.length ≤ m.cfg.maxConnections := by
  induction js with
  | nil => intro m _ _ h2; exact h2
  | cons j js ih =>
    intro m hall h1 h2
    have hstep := connEvent_preserves m j (hall j (List.mem_cons_self j js)) h1 h2
    have hrest := ih (runTask m j) (fun x hx => hall x (List.mem_cons_of_mem j hx))
      hstep.2.1 (hstep.1 ▸ hstep.2.2)
    rw [runEvents] at hrest ⊢
    rw [List.foldl_cons]
    exact hstep.1 ▸ hrest

end ShutdownCoordinator

namespace ShutdownCoordinator

/-! ## Claim theorems -/

/-- Claim C1: the spec requires the full shutdown phase sequence to execute
exactly once for every sequence of triggers interleaved with
connection-removal events.  On the code this fails: with one tracked
connection (a second trigger being correctly ignored by the idempotence
guard), the connection closing during draining makes `removeConnection`
both resolve the drain promise and call `transitionToCleanup`, so the
resource-cleanup phase (and the phases after it) executes twice in one
process run. -/
theorem c1_cleanup_phase_runs_twice :
    countInitiated (run 60 scenarioDoubleCleanup).trace = 1 ∧
    Ev.ignoredTrigger ∈ (run 60 scenarioDoubleCleanup).trace ∧
    countCleanupStarts (run 60 scenarioDoubleCleanup).trace = 2 ∧
    (run 60 scenarioDoubleCleanup).exited = some EXIT_GRACEFUL := by
  decide

/-- Claim C2: in the spec's concrete scenario (3 connections, 100ms grace
period, closures at 10ms/20ms/150ms) the code does force-close the one
remaining connection at the grace deadline and reports a final connection
count of 0, but it records no error for the forced drain and never
constructs a `TimeoutError`, so `completeShutdown` exits with status 0
(`GRACEFUL`), not the claimed status 1 (`TIMEOUT`). -/
theorem c2_grace_expiry_exit_code_zero :
    Ev.graceExpired 1 ∈ (run 80 scenarioGraceExpiry).trace ∧
    Ev.forceClosed 1 ∈ (run 80 scenarioGraceExpiry).trace ∧
    Ev.completed EXIT_GRACEFUL 0 ∈ (run 80 scenarioGraceExpiry).trace ∧
    (run 80 scenarioGraceExpiry).exited = some EXIT_GRACEFUL ∧
    (run 80 scenarioGraceExpiry).exited ≠ some EXIT_TIMEOUT := by
  decide

/-- Claim C3: the spec requires the state to be `CLEANUP` when resource
cleanup begins in every run of the normal sequence.  On the code this
fails: `executeShutdownSequence` never transitions to `CLEANUP` itself
(only the `removeConnection` side path does), so when shutdown is
triggered with an empty registry, resource cleanup begins while the state
is still `SHUTDOWN_PENDING`. -/
theorem c3_cleanup_starts_in_shutdown_pending :
    Ev.cleanupStarted SState.shutdownPending ∈ (run 40 scenarioNoConns).trace ∧
    Ev.cleanupStarted SState.cleanup ∉ (run 40 scenarioNoConns).trace ∧
    (run 40 scenarioNoConns).exited = some EXIT_GRACEFUL := by
  decide

/-- Claim C5: if the connection registry is empty when the drain phase is
entered, draining completes immediately with a natural outcome: the state
is unchanged (never `DRAINING`), no grace-period timer is started
(`timerQ` untouched), no connection is force-closed, and the sequence
resumes at once. -/
theorem c5_empty_registry_drains_immediately (m : Machine) (h : m.c.conns = []) :
    drainEntry m = { m with
                     trace := m.trace ++ [Ev.drainImmediate],
                     jobs := m.jobs ++ [Job.seqAfterDrain] } := by
  unfold drainEntry
  rw [if_pos h]

/-- Claim C5 witness: the registered coordinator with no connections. -/
theorem c5_empty_registry_drains_immediately_witness :
    (mkScenario []).c.conns = [] ∧
    drainEntry (mkScenario []) =
      { mkScenario [] with
        trace := (mkScenario []).trace ++ [Ev.drainImmediate],
        jobs := (mkScenario []).jobs ++ [Job.seqAfterDrain] } :=
  ⟨rfl, c5_empty_registry_drains_immediately (mkScenario []) rfl⟩

/-- Claim C6: whatever machine state an exception escaping the awaited
shutdown sequence leaves behind, the catch block of `handleSignal` records
the error, force-closes every tracked connection, cancels the pending
grace timer, and schedules process exit with the distinct signal-error
status `EXIT_SIGNAL_ERROR = 3`. -/
theorem c6_escaped_fault_forces_exit_code_three (m : Machine) :
    EXIT_SIGNAL_ERROR = 3 ∧
    (handleSignalCatch m).c.errCount = m.c.errCount + 1 ∧
    (handleSignalCatch m).c.conns = [] ∧
    Ev.forceClosed m.c.conns.length ∈ (handleSignalCatch m).trace ∧
    (∀ e ∈ (handleSignalCatch m).timerQ, e.2 ≠ Job.graceFire) ∧
    (m.now + 100, Job.exitNow EXIT_SIGNAL_ERROR) ∈ (handleSignalCatch m).timerQ ∧
    (runTask (handleSignalCatch m) (Job.exitNow EXIT_SIGNAL_ERROR)).exited =
      some EXIT_SIGNAL_ERROR := by
  refine ⟨rfl, rfl, rfl, ?_, ?_, ?_, rfl⟩
  · simp [handleSignalCatch, forceShutdownRun]
  · intro e he
    simp only [handleSignalCatch, forceShutdownRun, clearGrace, List.mem_append,
      List.mem_filter, decide_eq_true_eq] at he
    rcases he with ⟨_, hp⟩ | he
    · exact hp
    · simp only [List.mem_singleton] at he
      subst he
      simp
  · simp [handleSignalCatch, forceShutdownRun]

/-- A concrete mid-drain machine state: two tracked connections, the grace
timer pending, one error already recorded. -/
def mDraining : Machine :=
  { cfg := cfgTest,
    c := { initCoord with
           state := SState.draining, shutdownInitiated := true,
           conns := [1, 2], connectionCounter := 2, timers := [0],
           drainListener := true, errCount := 1,
           server := some { hasClose := true } },
    now := 40, jobs := [],
    timerQ := [(100, Job.graceFire), (30000, Job.idleFire 1), (30001, Job.idleFire 2)],
    trace := [Ev.initiated, Ev.drainStarted 2], exited := none }

/-- Claim C6 witness: the catch block applied at a concrete mid-drain
machine state. -/
theorem c6_escaped_fault_forces_exit_code_three_witness :
    (handleSignalCatch mDraining).c.conns = [] ∧
    (mDraining.now + 100, Job.exitNow EXIT_SIGNAL_ERROR) ∈ (handleSignalCatch mDraining).timerQ ∧
    (runTask (handleSignalCatch mDraining) (Job.exitNow EXIT_SIGNAL_ERROR)).exited =
      some EXIT_SIGNAL_ERROR :=
  ⟨(c6_escaped_fault_forces_exit_code_three mDraining).2.2.1,
   (c6_escaped_fault_forces_exit_code_three mDraining).2.2.2.2.2.1,
   (c6_escaped_fault_forces_exit_code_three mDraining).2.2.2.2.2.2⟩

end ShutdownCoordinator

/-- Claim C4: the spec requires `releaseAll` to leave every handle set
empty without propagating faults.  On the code this fails: the timer sweep
has no per-handle catch and the outer catch re-throws, so a tracker seeded
with one failing and one succeeding timer handle makes
`performResourceCleanup` raise with the error recorded and the `timers`
set still holding both handles. -/
theorem c4_failing_timer_release_raises_and_leaves_handles :
    (ResourceTracker.performResourceCleanup ResourceTracker.seededTracker).2 = true ∧
    (ResourceTracker.performResourceCleanup ResourceTracker.seededTracker).1.timers =
      ResourceTracker.seededTracker.timers ∧
    (ResourceTracker.performResourceCleanup ResourceTracker.seededTracker).1.timers.length = 2 ∧
    (ResourceTracker.performResourceCleanup ResourceTracker.seededTracker).1.shutdownErrors = 1 := by
  decide

namespace ShutdownCoordinator

/-- Claim C7: `removeConnection` is idempotent.  The first call on a
tracked id cancels its idle timeout, deletes the record, and emits the
`connection-removed` notification; applying `removeConnection` again with
the same id leaves the machine exactly as the first call left it (no
registry change, no timer cancellation, no second notification). -/
theorem c7_remove_connection_idempotent (m : Machine) (id : Nat) (h : m.c.conns.Nodup) :
    removeConnection (removeConnection m id) id = removeConnection m id ∧
    (id ∈ m.c.conns →
      id ∉ (removeConnection m id).c.conns ∧
      (∀ t, (t, Job.idleFire id) ∉ (removeConnection m id).timerQ) ∧
      Ev.connRemoved id ∈ (removeConnection m id).trace) := by
  have hc := removeConnection_conns m id
  have hnotmem : id ∉ (removeConnection m id).c.conns := by
    rw [hc]
    by_cases hm : id ∈ m.c.conns
    · rw [if_pos hm]
      exact h.not_mem_erase
    · rw [if_neg hm]
      exact hm
  refine ⟨removeConnection_noop _ id hnotmem, fun hm => ⟨hnotmem, ?_, ?_⟩⟩
  · intro t ht
    exact mem_clearIdle (removeConnection_timerQ_mem m id hm _ ht) rfl
  · exact removeConnection_trace_mem m id hm

/-- A coordinator tracking one connection with its idle timeout pending. -/
def mOneConn : Machine :=
  { cfg := cfgTest,
    c := { initCoord with
           conns := [1], connectionCounter := 1,
           server := some { hasClose := true } },
    now := 0, jobs := [], timerQ := [(30000, Job.idleFire 1)],
    trace := [], exited := none }

/-- Claim C7 witness: removing connection 1 twice on a concrete
coordinator. -/
theorem c7_remove_connection_idempotent_witness :
    removeConnection (removeConnection mOneConn 1) 1 = removeConnection mOneConn 1 ∧
    1 ∉ (removeConnection mOneConn 1).c.conns ∧
    (30000, Job.idleFire 1) ∉ (removeConnection mOneConn 1).timerQ ∧
    Ev.connRemoved 1 ∈ (removeConnection mOneConn 1).trace :=
  ⟨(c7_remove_connection_idempotent mOneConn 1 (by decide)).1,
   ((c7_remove_connection_idempotent mOneConn 1 (by decide)).2 (by decide)).1,
   ((c7_remove_connection_idempotent mOneConn 1 (by decide)).2 (by decide)).2.1 30000,
   ((c7_remove_connection_idempotent mOneConn 1 (by decide)).2 (by decide)).2.2⟩

/-- Claim C8: during `ACTIVE` operation, a connection offered while the
registry is at or above the configured maximum is rejected (its transport
destroyed) and never added; consequently, over any sequence of
new-connection offers and transport closes processed while the coordinator
stays `ACTIVE`, the registry size never exceeds the configured maximum. -/
theorem c8_admission_control_bounds_registry (m : Machine) (hact : m.c.state = SState.active) :
    (m.c.conns.length ≥ m.cfg.maxConnections →
       (connOffer m).c.conns = m.c.conns ∧
       (connOffer m).trace = m.trace ++ [Ev.connRejected]) ∧
    (∀ js : List Job, (∀ j ∈ js, ConnEvent j) →
       m.c.conns.length ≤ m.cfg.maxConnections →
       (runEvents m js).c.conns.length ≤ m.cfg.maxConnections) :=
  ⟨fun hge => connOffer_reject m hact hge,
   fun js hall h2 => runEvents_invariant js m hall hact h2⟩

/-- An `ACTIVE` coordinator at its configured connection cap of 2. -/
def mAtCapacity : Machine :=
  { cfg := { gracePeriodMs := 100, connectionTimeoutMs := 500, maxConnections := 2 },
    c := { initCoord with
           conns := [1, 2], connectionCounter := 2,
           server := some { hasClose := true } },
    now := 0, jobs := [], timerQ := [], trace := [], exited := none }

/-- Claim C8 witness: at the cap, an offer is rejected and the registry
stays within the cap over a concrete offer/close sequence. -/
theorem c8_admission_control_bounds_registry_witness :
    ((connOffer mAtCapacity).c.conns = mAtCapacity.c.conns ∧
     (connOffer mAtCapacity).trace = mAtCapacity.trace ++ [Ev.connRejected]) ∧
    (runEvents mAtCapacity
       [Job.connOffer, Job.socketClose 1, Job.connOffer, Job.connOffer]).c.conns.length ≤
      mAtCapacity.cfg.maxConnections :=
  ⟨(c8_admission_control_bounds_registry mAtCapacity rfl).1 (by decide),
   (c8_admission_control_bounds_registry mAtCapacity rfl).2
     [Job.connOffer, Job.socketClose 1, Job.connOffer, Job.connOffer]
     (by
       intro j hj
       simp only [List.mem_cons, List.not_mem_nil, or_false] at hj
       rcases hj with rfl | rfl | rfl | rfl
       · exact Or.inl rfl
       · exact Or.inr ⟨1, rfl⟩
       · exact Or.inl rfl
       · exact Or.inl rfl)
     (by decide)⟩

/-- Claim C9: registering a new connection and immediately removing it is
a round-trip.  When the offer is admitted, the freshly allocated id is in
the registry, and removing it restores the registry to exactly its prior
contents: same records, same size, no trace of the new connection. -/
theorem c9_register_remove_roundtrip (m : Machine)
    (hb : ∀ i ∈ m.c.conns, i ≤ m.c.connectionCounter)
    (hadm : m.c.conns.length < m.cfg.maxConnections ∨ m.c.state ≠ SState.active) :
    (m.c.connectionCounter + 1) ∈ (connOffer m).c.conns ∧
    (removeConnection (connOffer m) (m.c.connectionCounter + 1)).c.conns = m.c.conns ∧
    (removeConnection (connOffer m) (m.c.connectionCounter + 1)).c.conns.length =
      m.c.conns.length ∧
    (m.c.connectionCounter + 1) ∉
      (removeConnection (connOffer m) (m.c.connectionCounter + 1)).c.conns := by
  have hid : (m.c.connectionCounter + 1) ∉ m.c.conns := by
    intro hmem
    have := hb _ hmem
    omega
  have hconns := connOffer_conns_admitted m hadm
  have hmem : (m.c.connectionCounter + 1) ∈ (connOffer m).c.conns := by
    rw [hconns]
    exact List.mem_append_right _ (List.mem_singleton_self _)
  have herase : (connOffer m).c.conns.erase (m.c.connectionCounter + 1) = m.c.conns := by
    rw [hconns, List.erase_append_right _ hid, List.erase_cons_head, List.append_nil]
  have hrem : (removeConnection (connOffer m) (m.c.connectionCounter + 1)).c.conns =
      m.c.conns := by
    rw [removeConnection_conns, if_pos hmem, herase]
  exact ⟨hmem, hrem, by rw [hrem], fun hcontra => hid (hrem ▸ hcontra)⟩

/-- An `ACTIVE` coordinator below its cap, with id 1 tracked and counter 2. -/
def mBelowCapacity : Machine :=
  { cfg := { gracePeriodMs := 100, connectionTimeoutMs := 500, maxConnections := 2 },
    c := { initCoord with
           conns := [1], connectionCounter := 2,
           server := some { hasClose := true } },
    now := 0, jobs := [], timerQ := [(500, Job.idleFire 1)], trace := [], exited := none }

/-- Claim C9 witness: offering connection 3 and removing it restores the
concrete registry `[1]`. -/
theorem c9_register_remove_roundtrip_witness :
    3 ∈ (connOffer mBelowCapacity).c.conns ∧
    (removeConnection (connOffer mBelowCapacity) 3).c.conns = mBelowCapacity.c.conns ∧
    (removeConnection (connOffer mBelowCapacity) 3).c.conns.length =
      mBelowCapacity.c.conns.length ∧
    3 ∉ (removeConnection (connOffer mBelowCapacity) 3).c.conns :=
  ⟨(c9_register_remove_roundtrip mBelowCapacity (by decide) (Or.inl (by decide))).1,
   (c9_register_remove_roundtrip mBelowCapacity (by decide) (Or.inl (by decide))).2.1,
   (c9_register_remove_roundtrip mBelowCapacity (by decide) (Or.inl (by decide))).2.2.1,
   (c9_register_remove_roundtrip mBelowCapacity (by decide) (Or.inl (by decide))).2.2.2⟩

/-- Claim C10: `registerServer` validates its argument (a missing server
or one without a `close` function is rejected with a thrown error and no
state change), succeeds at most once, and a second call after a successful
registration throws while leaving the registered server, the installed
connection tracking, and the installed signal handlers untouched. -/
theorem c10_register_server_validates_and_is_single_shot (m : Machine) (s : ServerObj) :
    registerServer m none = (m, some "Invalid server instance provided") ∧
    (s.hasClose = false →
       registerServer m (some s) = (m, some "Invalid server instance provided")) ∧
    (m.c.server.isSome = true → s.hasClose = true →
       registerServer m (some s) =
         (m, some "Server already registered with shutdown coordinator")) ∧
    (m.c.server = none → s.hasClose = true →
       (registerServer m (some s)).2 = none ∧
       (registerServer m (some s)).1.c.server = some s ∧
       (registerServer m (some s)).1.c.trackingInstalled = true ∧
       (registerServer m (some s)).1.c.signalHandlersInstalled = true) := by
  refine ⟨rfl, ?_, ?_, ?_⟩
  · intro hf
    simp [registerServer, hf]
  · intro hreg hc
    simp [registerServer, hc, hreg]
  · intro hnone hc
    simp [registerServer, hc, hnone]

/-- A freshly constructed coordinator with no server registered. -/
def mFresh : Machine :=
  { cfg := cfgTest, c := initCoord, now := 0, jobs := [], timerQ := [],
    trace := [], exited := none }

/-- Claim C10 witness: rejection of an invalid server, one successful
registration, and rejection of a second registration, on concrete
machines. -/
theorem c10_register_server_validates_and_is_single_shot_witness :
    registerServer mFresh (some { hasClose := false }) =
      (mFresh, some "Invalid server instance provided") ∧
    ((registerServer mFresh (some { hasClose := true })).2 = none ∧
     (registerServer mFresh (some { hasClose := true })).1.c.server =
       some { hasClose := true }) ∧
    registerServer (registerServer mFresh (some { hasClose := true })).1
        (some { hasClose := true }) =
      ((registerServer mFresh (some { hasClose := true })).1,
       some "Server already registered with shutdown coordinator") :=
  ⟨(c10_register_server_validates_and_is_single_shot mFresh { hasClose := false }).2.1 rfl,
   ⟨((c10_register_server_validates_and_is_single_shot mFresh
       { hasClose := true }).2.2.2 rfl rfl).1,
    ((c10_register_server_validates_and_is_single_shot mFresh
       { hasClose := true }).2.2.2 rfl rfl).2.1⟩,
   (c10_register_server_validates_and_is_single_shot
      (registerServer mFresh (some { hasClose := true })).1 { hasClose := true }).2.2.1
     rfl rfl⟩

end ShutdownCoordinator
